import Mathlib

/-!
Verification of `sccache_config_checker.py`, a pre-flight health-check
utility for a distributed sccache deployment.

The script is modelled as pure Lean functions over an explicit `World`
oracle that records the outcome of every external effect (environment
variables, `docker` subprocess calls, `pgrep`, the config-file read, TCP
connection attempts).  Each checker function returns the `print_status`
lines it emits together with its boolean result; `main` returns the status
lines of the whole run together with the process exit code.

Python semantics that the script relies on are modelled explicitly:
`str.strip`, `str.split(sep)`, `int(str)` (underscore digit separators are
not modelled), truthiness of strings / ints / lists, `==` between values of
different types, `dict.get`, tuple comparison, and the hostname/port
extraction of `urllib.parse.urlparse` (bracketed IPv6 hosts are not
modelled).  Plain `print(...)` calls that are not `print_status` lines are
not part of the modelled trace; exception *message texts* coming from
Python exception objects are abstracted as the strings carried by the
oracle.
-/

/-- Python `str` whitespace predicate (the ASCII part, which is all the
script ever strips). -/
def pyIsSpace (c : Char) : Bool :=
  c = ' ' || c = '\t' || c = '\n' || c = '\r' || c = Char.ofNat 11 || c = Char.ofNat 12

/-- Python `str.strip()` on a character list. -/
def pyStripL (cs : List Char) : List Char :=
  ((cs.dropWhile pyIsSpace).reverse.dropWhile pyIsSpace).reverse

/-- Python `str.strip()`. -/
def pyStrip (s : String) : String :=
  String.mk (pyStripL s.data)

/-- Python `str.split(sep)` with an explicit one-character separator, on
character lists.  `"".split(sep)` is `[""]`: the result is never empty. -/
def pySplitCh (sep : Char) : List Char → List (List Char)
  | [] => [[]]
  | c :: cs =>
    if c = sep then [] :: pySplitCh sep cs
    else
      match pySplitCh sep cs with
      | [] => [[c]]
      | h :: t => (c :: h) :: t

/-- Python `s.split(sep)` with a one-character separator, on strings. -/
def pySplitStr (s : String) (sep : Char) : List String :=
  (pySplitCh sep s.data).map String.mk

/-- Value of a non-empty all-digit run, `none` otherwise. -/
def pyDigits (cs : List Char) : Option Nat :=
  if cs = [] then none
  else if cs.all Char.isDigit then
    some (cs.foldl (fun a c => a * 10 + (c.toNat - 48)) 0)
  else none

/-- Python `int(s)`: surrounding whitespace stripped, one optional sign,
then decimal digits; `none` models the `ValueError`. -/
def pyInt (s : String) : Option Int :=
  match pyStripL s.data with
  | '-' :: rest => (pyDigits rest).map (fun n => -(n : Int))
  | '+' :: rest => (pyDigits rest).map (fun n => (n : Int))
  | cs => (pyDigits cs).map (fun n => (n : Int))

/-- Python `<` on integer tuples/lists: lexicographic, a strict prefix is
smaller. -/
def pyListLt : List Int → List Int → Bool
  | [], [] => false
  | [], _ :: _ => true
  | _ :: _, [] => false
  | a :: as, b :: bs => if a < b then true else if b < a then false else pyListLt as bs

/-- Python `>=` on integer tuples/lists. -/
def pyListGe (a b : List Int) : Bool :=
  !pyListLt a b

/-- Python `sum` over a list of booleans: the number of `True`s. -/
def countTrue (l : List Bool) : Nat :=
  l.count true

/-- A value of the parsed TOML document (the types `toml.loads` can
produce that the script consults; floats and dates never reach a
comparison and are not modelled). -/
inductive Py where
  | str (s : String)
  | int (n : Int)
  | boolean (b : Bool)
  | dict (kvs : List (String × Py))
  | arr (vs : List Py)

/-- Python `dict.get(k)` on the association list of a `Py.dict`. -/
def pyDictGet (kvs : List (String × Py)) (k : String) : Option Py :=
  match kvs.find? (fun kv => kv.1 == k) with
  | some kv => some kv.2
  | none => none

/-- Python `dict.get(k, d)`. -/
def pyDictGetD (kvs : List (String × Py)) (k : String) (d : Py) : Py :=
  (pyDictGet kvs k).getD d

/-- Python `v.get(k)`: an `AttributeError` (modelled as `Except.error`)
unless `v` is a dict. -/
def pyGetOpt (v : Py) (k : String) : Except String (Option Py) :=
  match v with
  | .dict kvs => .ok (pyDictGet kvs k)
  | _ => .error "AttributeError: object has no attribute get"

/-- Python `v.get(k, d)`: an `AttributeError` unless `v` is a dict. -/
def pyGetD (v : Py) (k : String) (d : Py) : Except String Py :=
  match v with
  | .dict kvs => .ok (pyDictGetD kvs k d)
  | _ => .error "AttributeError: object has no attribute get"

/-- Python `==` between an optional `Py` value (a `dict.get` result) and a
string literal: `None` and non-string values never equal a string. -/
def pyEqStrLit (a : Option Py) (lit : String) : Bool :=
  match a with
  | some (.str s) => s == lit
  | _ => false

/-- Python `==` between an optional `Py` value and an optional string
(an `os.environ.get` result): `None == None` is `True`, a string equals a
string with the same characters, everything else is unequal. -/
def pyEqOptStr (a : Option Py) (b : Option String) : Bool :=
  match a, b with
  | none, none => true
  | some (.str s), some t => s == t
  | _, _ => false

/-- Python `==` between a `Py` value and a string. -/
def pyEqStr (a : Py) (b : String) : Bool :=
  match a with
  | .str s => s == b
  | _ => false

/-- Truthiness of `Optional[str]` (`None` and `""` are falsy). -/
def optStrTruthy : Option String → Bool
  | some s => s ≠ ""
  | none => false

/-- Truthiness of `Optional[int]` (`None` and `0` are falsy). -/
def optIntTruthy : Option Int → Bool
  | some n => n ≠ 0
  | none => false

/-! URL parsing: the hostname/port fragment of `urllib.parse.urlparse`. -/

/-- Characters allowed in a URL scheme. -/
def isSchemeChar (c : Char) : Bool :=
  c.isAlphanum || c = '+' || c = '-' || c = '.'

/-- Split a character list at the first occurrence of `sep`. -/
def splitAtFirst (sep : Char) : List Char → Option (List Char × List Char)
  | [] => none
  | c :: cs =>
    if c = sep then some ([], cs)
    else (splitAtFirst sep cs).map (fun p => (c :: p.1, p.2))

/-- Drop a leading `scheme:` when the part before the first colon is a
non-empty run of scheme characters starting with a letter. -/
def dropSchemePart (cs : List Char) : List Char :=
  match splitAtFirst ':' cs with
  | some (before, after) =>
    match before with
    | [] => cs
    | b :: _ => if b.isAlpha && before.all isSchemeChar then after else cs
  | none => cs

/-- The netloc: after a leading `//`, up to the next `/`, `?` or `#`;
empty when the rest does not start with `//`. -/
def netlocOf : List Char → List Char
  | '/' :: '/' :: rest => rest.takeWhile (fun c => !(c = '/' || c = '?' || c = '#'))
  | _ => []

/-- Drop the userinfo: the part of the netloc after the last `@`. -/
def afterLastAt (cs : List Char) : List Char :=
  match splitAtFirst '@' cs.reverse with
  | some (revHost, _) => revHost.reverse
  | none => cs

/-- Partition the hostinfo at the first `:` into raw host and raw port. -/
def hostPortRaw (hostinfo : List Char) : List Char × List Char :=
  match splitAtFirst ':' hostinfo with
  | some (h, p) => (h, p)
  | none => (hostinfo, [])

/-- The `port` property: `none` when no digits follow the colon, a
`ValueError` (`Except.error`) when the text is not an integer in
`0..65535`. -/
def portOf (p : List Char) : Except Unit (Option Int) :=
  if p = [] then .ok none
  else
    match pyInt (String.mk p) with
    | some n => if 0 ≤ n ∧ n ≤ 65535 then .ok (some n) else .error ()
    | none => .error ()

/-- The `hostname` property: lowercased, `none` when empty. -/
def hostnameOf (h : List Char) : Option String :=
  if h = [] then none else some (String.mk (h.map Char.toLower))

/-- Hostname and port of a URL as `urllib.parse.urlparse` reports them
(an `Except.error` models the `ValueError` raised by the `port`
property). -/
def urlparseHostPort (url : String) : Except Unit (Option String × Option Int) :=
  let rest := dropSchemePart url.data
  let netloc := netlocOf rest
  let hostinfo := afterLastAt netloc
  let hp := hostPortRaw hostinfo
  match portOf hp.2 with
  | .error _ => .error ()
  | .ok port => .ok (hostnameOf hp.1, port)

/-! The program's data model: oracle world, status lines, helpers. -/

/-- Environment: `os.environ.get`. -/
def EnvT : Type := String → Option String

/-- Outcome of a `subprocess.run(..., check=True)` call, when it fails. -/
inductive RunExc where
  | calledProcessError (returncode : Int) (stderr : String)
  | fileNotFoundError (msg : String)
  | otherError (msg : String)

/-- Outcome of a `subprocess.run(['sccache', cmd], timeout=10)` call. -/
inductive SubprocOutcome where
  | finished (stdout : String)
  | timedOut
  | raised (msg : String)

/-- Why reading/parsing the config file failed: `FileNotFoundError`, or any
other exception (read error or `toml.loads` parse error) with its text. -/
inductive ConfigErr where
  | fileNotFound
  | otherError (msg : String)

/-- The outcome oracle for every external effect the script performs. -/
structure World where
  /-- `os.environ`. -/
  env : EnvT
  /-- `Path.home()`. -/
  home : String
  /-- Outcome of `docker ps --filter name=... --format ...` (stdout, or any
  exception). -/
  dockerPs : Except String String
  /-- Outcome of a `docker exec` subprocess call, per full command line. -/
  execRun : List String → Except RunExc String
  /-- Whether `sccache-dist --version` runs with exit status 0. -/
  sccacheDistOk : Bool
  /-- Outcome of `pgrep -f sccache-dist` (stdout, or the exception text). -/
  pgrep : Except String String
  /-- Outcome of `docker --version` (stdout, or the exception text). -/
  dockerVersionOut : Except String String
  /-- Outcome of `subprocess.run(['sccache', cmd], timeout=10)`, per
  subcommand. -/
  sccacheRun : String → SubprocOutcome
  /-- Outcome of opening and `toml.loads`-parsing the config file: the raw
  text and the parsed top-level table, or the failure. -/
  configRead : Except ConfigErr (String × List (String × Py))
  /-- Whether `socket.create_connection((h, p), timeout=3)` succeeds. -/
  canConnect : String → Int → Bool

/-- One line printed by `print_status`. -/
structure StatusLine where
  message : String
  ok : Bool
  value : Option String
deriving DecidableEq

/-- `print_status(message, status, value)`: the printed line and the
returned boolean. -/
def print_status (message : String) (status : Bool) (value : Option String) :
    StatusLine × Bool :=
  (⟨message, status, value⟩, status)

/-- `CONTAINER_NAME = os.environ.get("SCCACHE_CONTAINER_NAME", "sccache-dist")`. -/
def containerName (env : EnvT) : String :=
  (env "SCCACHE_CONTAINER_NAME").getD "sccache-dist"

/-- The config file path: `SCCACHE_CONF` if set and non-empty, else
`~/.config/sccache/config`. -/
def configPath (w : World) : String :=
  match w.env "SCCACHE_CONF" with
  | some p => if p == "" then w.home ++ "/.config/sccache/config" else p
  | none => w.home ++ "/.config/sccache/config"

/-! The script's functions. -/

/-- `check_env_var(var_name, expected_value, optional)`: the status lines
it prints (the optional echo is a plain print, not a status line) and the
returned boolean. -/
def check_env_var (env : EnvT) (var_name : String) (expected_value : Option String)
    (optional : Bool) : List StatusLine × Bool :=
  let value := env var_name
  if optional then ([], true)
  else
    match expected_value with
    | some e =>
      let r := print_status var_name (value == some e) value
      ([r.1], r.2)
    | none =>
      let r := print_status (var_name ++ " is set") (!(value == none) && !(value == some "")) value
      ([r.1], r.2)

/-- `parse_url(url)`: `(None, None)` for a falsy argument or on any
exception (a `ValueError` from the `port` property), else the parsed
hostname and port. -/
def parse_url (url : Option String) : Option String × Option Int :=
  match url with
  | none => (none, none)
  | some s =>
    if s = "" then (none, none)
    else
      match urlparseHostPort s with
      | .ok hp => hp
      | .error _ => (none, none)

/-- `get_sccache_output(command)`. -/
def get_sccache_output (w : World) (command : String) : String :=
  match w.sccacheRun command with
  | .finished stdout => pyStrip stdout
  | .timedOut => "Timeout expired"
  | .raised e => "Error running sccache " ++ command ++ ": " ++ e

/-- `get_dist_status()`. -/
def get_dist_status (w : World) : String :=
  get_sccache_output w "--dist-status"

/-- `get_dist_auth()`. -/
def get_dist_auth (w : World) : String :=
  get_sccache_output w "--dist-auth"

/-- `check_sccache_dist_installed()`. -/
def check_sccache_dist_installed (w : World) : StatusLine × Bool :=
  print_status "sccache-dist is installed" w.sccacheDistOk none

/-- `check_sccache_processes()`: on a successful `pgrep` the boolean is
the truthiness of `result.stdout.strip().split('\n')`. -/
def check_sccache_processes (w : World) : StatusLine × Bool :=
  match w.pgrep with
  | .ok stdout =>
    let process_ids := pySplitStr (pyStrip stdout) '\n'
    print_status "sccache-dist processes are running" (!process_ids.isEmpty) none
  | .error e => print_status "sccache-dist processes are running" false (some e)

/-- `docker_container_running()`: the stripped `docker ps` output equals
the container name; `False` on any exception. -/
def docker_container_running (w : World) : Bool :=
  match w.dockerPs with
  | .ok out => pyStrip out == containerName w.env
  | .error _ => false

/-- Python `repr` of a list of strings, as an f-string formats
`full_cmd`. -/
def pyListRepr (args : List String) : String :=
  "[" ++ String.intercalate ", " (args.map (fun a => "'" ++ a ++ "'")) ++ "]"

/-- `docker_exec(cmd_args)`: `(success, output-or-error-message)`.  The
container-running precondition is checked first; when it fails no
subprocess is consulted. -/
def docker_exec (w : World) (cmd_args : List String) : Bool × String :=
  if docker_container_running w then
    let full_cmd := ["docker", "exec", containerName w.env] ++ cmd_args
    match w.execRun full_cmd with
    | .ok out => (true, pyStrip out)
    | .error (.calledProcessError code stderr) =>
      (false, "Error code " ++ toString code ++ " running " ++ pyListRepr full_cmd ++ ": "
        ++ pyStrip stderr)
    | .error (.fileNotFoundError msg) => (false, "Docker not found: " ++ msg)
    | .error (.otherError msg) =>
      (false, "Unexpected error running " ++ pyListRepr full_cmd ++ ": " ++ msg)
  else
    (false, "Container '" ++ containerName w.env ++ "' is not running.")

/-- Python `str.startswith`, on character lists. -/
def startsWithL : List Char → List Char → Bool
  | [], _ => true
  | _ :: _, [] => false
  | p :: ps, c :: cs => p = c && startsWithL ps cs

/-- The `ver_line[len("bubblewrap "):]` slice guarded by `startswith`
(`"bubblewrap "` has 11 characters). -/
def stripBubblewrapWord (s : String) : String :=
  if startsWithL "bubblewrap ".data s.data then String.mk (s.data.drop 11) else s

/-- The nested `parse_version`: split on `.`, all parts as ints, any
failure collapses to `(0, 0, 0)`. -/
def parse_version (v : String) : List Int :=
  match (pySplitStr v '.').mapM pyInt with
  | some ns => ns
  | none => [0, 0, 0]

/-- `check_bubblewrap_in_container()`. -/
def check_bubblewrap_in_container (w : World) : StatusLine × Bool :=
  match docker_exec w ["bwrap", "--version"] with
  | (false, out) => print_status "Bubblewrap is installed in container" false (some out)
  | (true, out) =>
    let ver_line := stripBubblewrapWord (pyStrip out)
    let current := parse_version ver_line
    let is_ok := pyListGe current [0, 3, 0]
    print_status "Bubblewrap version >= 0.3.0 in container" is_ok (some out)

/-- `check_toolchain_cache_dir_in_container()`. -/
def check_toolchain_cache_dir_in_container (w : World) : StatusLine × Bool :=
  match docker_exec w ["sh", "-c", "test -w /tmp/toolchains && echo OK || echo NO"] with
  | (false, out) =>
    print_status "Toolchain cache directory is accessible inside container" false (some out)
  | (true, out) =>
    print_status "Toolchain cache directory is accessible inside container" (pyStrip out == "OK") none

/-- The config-token line of `check_container_token`: the token is fetched
by `cfg.get('dist', {}).get('auth', {}).get('token', '')` inside a `try`
whose `except` branches print a failure line instead. -/
def containerTokenConfigLine (w : World) (container_token : String) : StatusLine :=
  match w.configRead with
  | .ok (_, config) =>
    let dist := pyDictGetD config "dist" (Py.dict [])
    match pyGetD dist "auth" (Py.dict []) with
    | .error e =>
      (print_status "Error reading local sccache config file for token check" false (some e)).1
    | .ok auth =>
      match pyGetD auth "token" (Py.str "") with
      | .error e =>
        (print_status "Error reading local sccache config file for token check" false (some e)).1
      | .ok config_token =>
        (print_status "Container token matches sccache config token"
          (pyEqStr config_token container_token) none).1
  | .error .fileNotFound =>
    (print_status "Local sccache config file NOT found for token check" false
      (some (configPath w))).1
  | .error (.otherError e) =>
    (print_status "Error reading local sccache config file for token check" false (some e)).1

/-- `check_container_token()`: retrieves the in-container token file,
prints the env and config comparisons, and returns `True` whenever the
retrieval succeeded. -/
def check_container_token (w : World) : List StatusLine × Bool :=
  match docker_exec w ["cat", "/root/.sccache_dist_token"] with
  | (false, msg) =>
    ([(print_status "Retrieve /root/.sccache_dist_token from container" false (some msg)).1], false)
  | (true, container_token) =>
    let l1 := (print_status "Retrieve /root/.sccache_dist_token from container" true
      (some container_token)).1
    let local_env_token := (w.env "SCCACHE_DIST_TOKEN").getD ""
    let l2 := (print_status "Container token matches local SCCACHE_DIST_TOKEN"
      (container_token == local_env_token) none).1
    let l3 := containerTokenConfigLine w container_token
    ([l1, l2, l3], true)

/-! The sections of `main` that feed the tally. -/

/-- The four required environment-variable checks of `main` (the optional
`SCCACHE_LOG` / `SCCACHE_CONF` echoes print nothing tallied and their
`True` return value is discarded). -/
def envSection (env : EnvT) : List StatusLine × List Bool :=
  let r1 := check_env_var env "SCCACHE_NO_DAEMON" (some "1") false
  let r2 := check_env_var env "SCCACHE_DIST_AUTH" (some "token") false
  let r3 := check_env_var env "SCCACHE_DIST_TOKEN" none false
  let r4 := check_env_var env "SCCACHE_SCHEDULER_URL" none false
  (r1.1 ++ r2.1 ++ r3.1 ++ r4.1, [r1.2, r2.2, r3.2, r4.2])

/-- The config section of `main`: on a read/parse failure the `except`
branch appends a single `False`; inside the `try`, an exception raised
mid-way (a non-dict `dist` or `auth` value) is caught after the checks
already appended, and also appends a single `False`. -/
def configSection (cfg : Except ConfigErr (String × List (String × Py)))
    (env_token env_scheduler_url : Option String) : List StatusLine × List Bool :=
  match cfg with
  | .error _ => ([], [false])
  | .ok (_, config) =>
    let dist := pyDictGetD config "dist" (Py.dict [])
    match pyGetOpt dist "scheduler_url" with
    | .error _ => ([], [false])
    | .ok scheduler_url =>
      let r1 := print_status "scheduler_url present" scheduler_url.isSome none
      match pyGetD dist "auth" (Py.dict []) with
      | .error _ => ([r1.1], [r1.2, false])
      | .ok auth1 =>
        match pyGetOpt auth1 "type" with
        | .error _ => ([r1.1], [r1.2, false])
        | .ok auth_type =>
          let r2 := print_status "auth type == token" (pyEqStrLit auth_type "token") none
          match pyGetD dist "auth" (Py.dict []) with
          | .error _ => ([r1.1, r2.1], [r1.2, r2.2, false])
          | .ok auth2 =>
            match pyGetOpt auth2 "token" with
            | .error _ => ([r1.1, r2.1], [r1.2, r2.2, false])
            | .ok config_token =>
              let r3 := print_status "env SCCACHE_DIST_TOKEN matches config token"
                (pyEqOptStr config_token env_token) none
              let r4 := print_status "env SCCACHE_SCHEDULER_URL matches config scheduler_url"
                (pyEqOptStr scheduler_url env_scheduler_url) none
              ([r1.1, r2.1, r3.1, r4.1], [r1.2, r2.2, r3.2, r4.2])

/-- The runtime section of `main`: when the parsed scheduler URL yields a
truthy host and a truthy port, two connectivity checks; otherwise a single
appended `False`. -/
def runtimeSection (env : EnvT) (connect : String → Int → Bool) :
    List StatusLine × List Bool :=
  match parse_url (env "SCCACHE_SCHEDULER_URL") with
  | (some host, some port) =>
    if host ≠ "" ∧ port ≠ 0 then
      let r1 := print_status
        ("Host can connect to scheduler at " ++ host ++ ":" ++ toString port)
        (connect host port) none
      let r2 := print_status
        ("Host can connect to builder at " ++ host ++ ":10501")
        (connect host 10501) none
      ([r1.1, r2.1], [r1.2, r2.2])
    else ([], [false])
  | _ => ([], [false])

/-- The tallied attempted-check count: the lengths of exactly the three
groups (`total_checks` in `main`). -/
def attemptedCount (w : World) : Nat :=
  (envSection w.env).2.length
    + (configSection w.configRead (w.env "SCCACHE_DIST_TOKEN") (w.env "SCCACHE_SCHEDULER_URL")).2.length
    + (runtimeSection w.env w.canConnect).2.length

/-- The tallied passed-check count (`passed_checks` in `main`). -/
def passedCount (w : World) : Nat :=
  countTrue (envSection w.env).2
    + countTrue (configSection w.configRead (w.env "SCCACHE_DIST_TOKEN") (w.env "SCCACHE_SCHEDULER_URL")).2
    + countTrue (runtimeSection w.env w.canConnect).2

/-- The script's `main()` (named `mainRun` here since Lean reserves
`main`): every `print_status` line of the run in order, and the
process exit code.  The container checks, installation/process checks,
`docker --version` line and the diagnostic dumps are printed but feed no
list; only the env, config and runtime groups reach the tally. -/
def mainRun (w : World) : List StatusLine × Nat :=
  let is_running := docker_container_running w
  let header := print_status
    ("Docker container '" ++ containerName w.env ++ "' is running") is_running none
  let containerLines :=
    if is_running then
      (check_container_token w).1
        ++ [(check_bubblewrap_in_container w).1, (check_toolchain_cache_dir_in_container w).1]
    else []
  let installed := check_sccache_dist_installed w
  let procs := check_sccache_processes w
  let dockerLine :=
    match w.dockerVersionOut with
    | .ok v => print_status "Docker is installed" true (some (pyStrip v))
    | .error e => print_status "Docker is installed" false (some e)
  let envS := envSection w.env
  let cfgS := configSection w.configRead (w.env "SCCACHE_DIST_TOKEN") (w.env "SCCACHE_SCHEDULER_URL")
  let rtS := runtimeSection w.env w.canConnect
  let total_checks := envS.2.length + cfgS.2.length + rtS.2.length
  let passed_checks := countTrue envS.2 + countTrue cfgS.2 + countTrue rtS.2
  (header.1 :: containerLines ++ [installed.1, procs.1, dockerLine.1]
    ++ envS.1 ++ cfgS.1 ++ rtS.1,
   if passed_checks = total_checks then 0 else 1)

/-! Concrete inputs for the witnesses. -/

/-- A fully configured environment. -/
def envBase : EnvT := fun k =>
  if k = "SCCACHE_NO_DAEMON" then some "1"
  else if k = "SCCACHE_DIST_AUTH" then some "token"
  else if k = "SCCACHE_DIST_TOKEN" then some "abc"
  else if k = "SCCACHE_SCHEDULER_URL" then some "http://sched.example:10600"
  else none

/-- The parsed config document of the testable-properties scenario. -/
def docBase : List (String × Py) :=
  [("dist", Py.dict
    [("scheduler_url", Py.str "http://sched.example:10600"),
     ("auth", Py.dict [("type", Py.str "token"), ("token", Py.str "abc")])])]

/-- A world where the container runs, every probe succeeds and the config
matches the environment. -/
def wBase : World where
  env := envBase
  home := "/root"
  dockerPs := .ok "sccache-dist\n"
  execRun := fun args =>
    if args = ["docker", "exec", "sccache-dist", "bwrap", "--version"] then
      .ok "bubblewrap 0.11.0\n"
    else if args = ["docker", "exec", "sccache-dist", "cat", "/root/.sccache_dist_token"] then
      .ok "abc"
    else .ok "OK"
  sccacheDistOk := true
  pgrep := .ok ""
  dockerVersionOut := .ok "Docker version 24.0.0\n"
  sccacheRun := fun _ => .finished ""
  configRead := .ok ("", docBase)
  canConnect := fun _ _ => true

/-- `envBase` with a mismatched `SCCACHE_DIST_TOKEN`. -/
def envXyz : EnvT := fun k =>
  if k = "SCCACHE_DIST_TOKEN" then some "xyz" else envBase k

/-- `wBase` with the scheduler URL replaced by one carrying no port. -/
def wNoPort : World :=
  { wBase with env := fun k =>
      if k = "SCCACHE_SCHEDULER_URL" then some "http://sched.example/" else envBase k }

/-- `wBase` with no scheduler URL in the environment at all. -/
def wNoUrl : World :=
  { wBase with env := fun k =>
      if k = "SCCACHE_SCHEDULER_URL" then none else envBase k }

/-- `wBase` with the container absent (`docker ps` prints nothing). -/
def wNoContainer : World :=
  { wBase with dockerPs := .ok "" }

/-- `wBase` with a failing `pgrep` (exit status 1: no process matched). -/
def wPgrepFail : World :=
  { wBase with pgrep := .error "Command returned non-zero exit status 1." }

/-- `wBase` with a container token that matches neither the environment
token nor the config token, and a missing config file. -/
def wTokenMismatch : World :=
  { wBase with
      execRun := fun args =>
        if args = ["docker", "exec", "sccache-dist", "cat", "/root/.sccache_dist_token"] then
          .ok "container-secret"
        else .ok "OK"
      configRead := .error .fileNotFound }

/-! Helper lemmas. -/

/-- Python `split` never returns an empty list. -/
theorem pySplitCh_ne_nil (sep : Char) (cs : List Char) : pySplitCh sep cs ≠ [] := by
  cases cs with
  | nil => simp [pySplitCh]
  | cons c cs =>
    unfold pySplitCh
    by_cases hc : c = sep
    · simp [hc]
    · simp only [hc, if_false]
      cases pySplitCh sep cs <;> simp

/-- Python `split` on a string never returns an empty list. -/
theorem pySplitStr_ne_nil (s : String) (sep : Char) : pySplitStr s sep ≠ [] := by
  simp only [pySplitStr, ne_eq, List.map_eq_nil_iff]
  exact pySplitCh_ne_nil sep s.data

/-! The claims. -/

/-- C1: the process exits with status 0 iff the passed count equals the
attempted count, the attempted checks being exactly the three tallied
groups (environment, config, runtime); everything else `main` runs feeds
no tally list. -/
theorem exit_zero_iff_all_groups_pass (w : World) :
    (mainRun w).2 = (if passedCount w = attemptedCount w then 0 else 1)
    ∧ ((mainRun w).2 = 0 ↔ passedCount w = attemptedCount w) := by
  have h : (mainRun w).2 = (if passedCount w = attemptedCount w then 0 else 1) := rfl
  refine ⟨h, ?_⟩
  rw [h]
  by_cases hc : passedCount w = attemptedCount w <;> simp [hc]

/-- C2: a config file that cannot be opened or parsed contributes exactly
one failed check to the config group — not four. -/
theorem config_error_single_false (e : ConfigErr) (t u : Option String) :
    (configSection (Except.error e) t u).2 = [false]
    ∧ (configSection (Except.error e) t u).2.length = 1
    ∧ countTrue (configSection (Except.error e) t u).2 = 0 :=
  ⟨rfl, rfl, rfl⟩

/-- C3: with the matching config document and environment all four
config-derived checks pass; with `SCCACHE_DIST_TOKEN=xyz` exactly the
token-match check fails. -/
theorem config_checks_concrete_scenarios :
    (configSection (Except.ok ("", docBase))
        (envBase "SCCACHE_DIST_TOKEN") (envBase "SCCACHE_SCHEDULER_URL")).2
      = [true, true, true, true]
    ∧ (configSection (Except.ok ("", docBase))
        (envXyz "SCCACHE_DIST_TOKEN") (envXyz "SCCACHE_SCHEDULER_URL")).2
      = [true, true, false, true] :=
  ⟨by decide, by decide⟩

/-- C4: a required variable with an expected literal passes iff it is set
to exactly that literal; a required variable without one passes iff it is
set to a non-empty string; unset or empty fails. -/
theorem env_var_check_semantics (env : EnvT) :
    ((check_env_var env "SCCACHE_NO_DAEMON" (some "1") false).2 = true
      ↔ env "SCCACHE_NO_DAEMON" = some "1")
    ∧ ((check_env_var env "SCCACHE_DIST_AUTH" (some "token") false).2 = true
      ↔ env "SCCACHE_DIST_AUTH" = some "token")
    ∧ ((check_env_var env "SCCACHE_DIST_TOKEN" none false).2 = true
      ↔ ∃ v, env "SCCACHE_DIST_TOKEN" = some v ∧ v ≠ "")
    ∧ ((check_env_var env "SCCACHE_SCHEDULER_URL" none false).2 = true
      ↔ ∃ v, env "SCCACHE_SCHEDULER_URL" = some v ∧ v ≠ "") := by
  have hLit : ∀ name e, (check_env_var env name (some e) false).2 = true ↔ env name = some e := by
    intro name e
    simp [check_env_var, print_status]
  have hSet : ∀ name, (check_env_var env name none false).2 = true
      ↔ ∃ v, env name = some v ∧ v ≠ "" := by
    intro name
    cases henv : env name with
    | none => simp [check_env_var, print_status, henv]
    | some v => simp [check_env_var, print_status, henv]
  exact ⟨hLit _ _, hLit _ _, hSet _, hSet _⟩

/-- C5: the in-container bubblewrap check strips the leading word
`bubblewrap `, splits the rest on dots into an integer tuple and passes
iff that tuple is at least `(0, 3, 0)` in Python's lexicographic tuple
order; any unparseable version collapses to `(0, 0, 0)`, which fails; the
reported `bubblewrap 0.11.0` passes. -/
theorem bubblewrap_version_check (w : World) (out : String)
    (h : docker_exec w ["bwrap", "--version"] = (true, out)) :
    (check_bubblewrap_in_container w).2
        = pyListGe (parse_version (stripBubblewrapWord (pyStrip out))) [0, 3, 0]
    ∧ (∀ v, (pySplitStr v '.').mapM pyInt = none → parse_version v = [0, 0, 0])
    ∧ pyListGe [0, 0, 0] [0, 3, 0] = false
    ∧ (pyStrip out = "bubblewrap 0.11.0" → (check_bubblewrap_in_container w).2 = true) := by
  have h1 : (check_bubblewrap_in_container w).2
      = pyListGe (parse_version (stripBubblewrapWord (pyStrip out))) [0, 3, 0] := by
    unfold check_bubblewrap_in_container
    rw [h]
    rfl
  refine ⟨h1, ?_, rfl, ?_⟩
  · intro v hv
    unfold parse_version
    rw [hv]
  · intro hs
    rw [h1, hs]
    decide

/-- Witness for C5: in `wBase` the container reports `bubblewrap 0.11.0`
and the check passes. -/
theorem bubblewrap_version_check_witness :
    (check_bubblewrap_in_container wBase).2 = true :=
  (bubblewrap_version_check wBase "bubblewrap 0.11.0" (by decide)).2.2.2 (by decide)

/-- C6: a successful `pgrep` makes the processes check pass even with
empty output, because splitting the empty string on newlines yields the
truthy one-element list `[""]`; the check fails only when the subprocess
call raises. -/
theorem processes_check_truthy (w w2 : World) (out e : String)
    (h : w.pgrep = Except.ok out) (h2 : w2.pgrep = Except.error e) :
    (check_sccache_processes w).2 = true
    ∧ (check_sccache_processes w2).2 = false
    ∧ pySplitStr "" '\n' = [""] := by
  refine ⟨?_, ?_, rfl⟩
  · unfold check_sccache_processes
    rw [h]
    simp only [print_status, Bool.not_eq_true']
    rw [← Bool.not_eq_true, List.isEmpty_iff]
    exact pySplitStr_ne_nil _ _
  · unfold check_sccache_processes
    rw [h2]
    rfl

/-- Witness for C6: `wBase` has a succeeding `pgrep` with empty output and
its check passes; `wPgrepFail` has a raising `pgrep` and its check
fails. -/
theorem processes_check_truthy_witness :
    (check_sccache_processes wBase).2 = true
    ∧ (check_sccache_processes wPgrepFail).2 = false
    ∧ pySplitStr "" '\n' = [""] :=
  processes_check_truthy wBase wPgrepFail "" "Command returned non-zero exit status 1." rfl rfl

/-- C7: the URL parser maps `None` and the empty string to `(None, None)`
(it is a total function, so it never raises), and whenever the parsed
scheduler URL lacks a truthy host or a truthy port the two connectivity
probes are skipped and the runtime group is exactly one failed check. -/
theorem parse_url_falsy_and_guard (env : EnvT) (connect : String → Int → Bool)
    (h : optStrTruthy (parse_url (env "SCCACHE_SCHEDULER_URL")).1 = false
       ∨ optIntTruthy (parse_url (env "SCCACHE_SCHEDULER_URL")).2 = false) :
    parse_url none = (none, none)
    ∧ parse_url (some "") = (none, none)
    ∧ (runtimeSection env connect).2 = [false] := by
  refine ⟨rfl, rfl, ?_⟩
  rcases hp : parse_url (env "SCCACHE_SCHEDULER_URL") with ⟨ho, po⟩
  rw [hp] at h
  unfold runtimeSection
  rw [hp]
  cases ho with
  | none => rfl
  | some hst =>
    cases po with
    | none => rfl
    | some prt =>
      simp only [optStrTruthy, optIntTruthy] at h
      have hcond : ¬(hst ≠ "" ∧ prt ≠ 0) := by
        rcases h with h | h
        · intro hc
          exact hc.1 (by simpa using h)
        · intro hc
          exact hc.2 (by simpa using h)
      simp [hcond]

/-- Witness for C7: with no `SCCACHE_SCHEDULER_URL` in the environment the
runtime group is a single failed check. -/
theorem parse_url_falsy_and_guard_witness :
    parse_url none = (none, none)
    ∧ parse_url (some "") = (none, none)
    ∧ (runtimeSection wNoUrl.env wNoUrl.canConnect).2 = [false] :=
  parse_url_falsy_and_guard wNoUrl.env wNoUrl.canConnect (Or.inl (by decide))

/-- C8: when no container with exactly the configured name is running,
every in-container operation short-circuits: `docker_exec` returns the
not-running failure message for any command, the three in-container
checks fail, and the result is independent of the exec oracle (no
`docker exec` outcome is ever consulted). -/
theorem container_gate_short_circuit (w : World)
    (h : docker_container_running w = false) :
    (∀ args, docker_exec w args
        = (false, "Container '" ++ containerName w.env ++ "' is not running."))
    ∧ (check_container_token w).2 = false
    ∧ (check_bubblewrap_in_container w).2 = false
    ∧ (check_toolchain_cache_dir_in_container w).2 = false
    ∧ (∀ w2 args, w2.env = w.env → w2.dockerPs = w.dockerPs →
        docker_exec w2 args = docker_exec w args) := by
  have hde : ∀ args, docker_exec w args
      = (false, "Container '" ++ containerName w.env ++ "' is not running.") := by
    intro args
    unfold docker_exec
    rw [h]
    rfl
  refine ⟨hde, ?_, ?_, ?_, ?_⟩
  · unfold check_container_token
    rw [hde]
  · unfold check_bubblewrap_in_container
    rw [hde]
    rfl
  · unfold check_toolchain_cache_dir_in_container
    rw [hde]
    rfl
  · intro w2 args he hp
    have h2 : docker_container_running w2 = false := by
      unfold docker_container_running at h ⊢
      rw [hp, he]
      exact h
    have hde2 : docker_exec w2 args
        = (false, "Container '" ++ containerName w2.env ++ "' is not running.") := by
      unfold docker_exec
      rw [h2]
      rfl
    rw [hde2, hde args, he]

/-- Witness for C8: in `wNoContainer` (a `docker ps` that prints nothing)
the token retrieval short-circuits with the not-running message and the
token check fails. -/
theorem container_gate_short_circuit_witness :
    docker_exec wNoContainer ["cat", "/root/.sccache_dist_token"]
      = (false, "Container 'sccache-dist' is not running.")
    ∧ (check_container_token wNoContainer).2 = false := by
  have h := container_gate_short_circuit wNoContainer (by decide)
  refine ⟨?_, h.2.1⟩
  rw [h.1 ["cat", "/root/.sccache_dist_token"]]
  rfl

/-- C9: a scheduler URL parsing to a hostname but no port fails the
host-and-port guard, so the runtime group is a single failed check and
the exit status is 1 no matter what every other check does. -/
theorem scheduler_url_without_port (w : World) (host : String)
    (h : parse_url (w.env "SCCACHE_SCHEDULER_URL") = (some host, none)) :
    (runtimeSection w.env w.canConnect).2 = [false] ∧ (mainRun w).2 = 1 := by
  have hrt : (runtimeSection w.env w.canConnect).2 = [false] := by
    unfold runtimeSection
    rw [h]
  refine ⟨hrt, ?_⟩
  have key : ∀ ea cb : List Bool,
      countTrue ea + countTrue cb + countTrue [false]
        = ea.length + cb.length + ([false] : List Bool).length → False := by
    intro ea cb hEq
    have h1 : countTrue ea ≤ ea.length := List.count_le_length _ _
    have h2 : countTrue cb ≤ cb.length := List.count_le_length _ _
    have h3 : countTrue [false] = 0 := rfl
    have h4 : ([false] : List Bool).length = 1 := rfl
    omega
  have hne : passedCount w ≠ attemptedCount w := by
    unfold passedCount attemptedCount
    rw [hrt]
    exact fun hEq => key _ _ hEq
  have hexit : (mainRun w).2 = if passedCount w = attemptedCount w then 0 else 1 := rfl
  rw [hexit, if_neg hne]

/-- Witness for C9: `wNoPort` carries `http://sched.example/`, every other
probe of `wBase` succeeds, yet the exit status is 1. -/
theorem scheduler_url_without_port_witness :
    (runtimeSection wNoPort.env wNoPort.canConnect).2 = [false]
    ∧ (mainRun wNoPort).2 = 1 :=
  scheduler_url_without_port wNoPort "sched.example" (by decide)

/-- C10: whenever the in-container token file is retrieved successfully,
`check_container_token` returns `True`; the env-token comparison is only
printed (its line carries the comparison result), and the exit code of
the whole run never depends on the exec oracle that feeds these
comparisons. -/
theorem container_token_result_ignores_comparisons (w : World) (tok : String)
    (h : docker_exec w ["cat", "/root/.sccache_dist_token"] = (true, tok)) :
    (check_container_token w).2 = true
    ∧ (⟨"Container token matches local SCCACHE_DIST_TOKEN",
         tok == (w.env "SCCACHE_DIST_TOKEN").getD "", none⟩ : StatusLine)
        ∈ (check_container_token w).1
    ∧ ∀ ex : List String → Except RunExc String,
        (mainRun { w with execRun := ex }).2 = (mainRun w).2 := by
  have hck : check_container_token w
      = ([(print_status "Retrieve /root/.sccache_dist_token from container" true (some tok)).1,
          (print_status "Container token matches local SCCACHE_DIST_TOKEN"
            (tok == (w.env "SCCACHE_DIST_TOKEN").getD "") none).1,
          containerTokenConfigLine w tok], true) := by
    unfold check_container_token
    rw [h]
  refine ⟨by rw [hck], ?_, fun ex => rfl⟩
  rw [hck]
  simp [print_status]

/-- Witness for C10: in `wTokenMismatch` the container token matches
neither the environment token nor any config (the config file is
missing), the comparison line is printed as a failure, and the function
still returns `True`. -/
theorem container_token_result_ignores_comparisons_witness :
    (check_container_token wTokenMismatch).2 = true
    ∧ (⟨"Container token matches local SCCACHE_DIST_TOKEN", false, none⟩ : StatusLine)
        ∈ (check_container_token wTokenMismatch).1 := by
  have h := container_token_result_ignores_comparisons wTokenMismatch "container-secret" (by decide)
  refine ⟨h.1, ?_⟩
  have h2 := h.2.1
  have hb : ("container-secret" == (wTokenMismatch.env "SCCACHE_DIST_TOKEN").getD "") = false := by
    decide
  rw [hb] at h2
  exact h2
